import Mathlib

/-!
# mattermost-load-test-ng: agent bootstrap and deployment-config validation

A shallow embedding of `deployment/terraform/agent.go`
(`generateLoadtestAgentConfig`, `configureAndRunAgents`, `initLoadtest`) and of
the validation exercised by `deployment/config_test.go`, with the properties
stated by the specification proved (or refuted) over it.

Go strings are Lean `String`s, Go slices are `List`s, a Go `error` result is an
`Except`, and a run-time panic is a separate kind of failure.
-/

namespace LoadTest

/-! ## Failures -/

/-- How a Go call can fail: it returns a non-nil `error`, or it panics. -/
inductive Failure where
  | err (msg : String)
  | panic (msg : String)
deriving DecidableEq, Repr

/-! ## Credential split (agent.go, lines 68-86) -/

/-- The `for scanner.Scan()` loop of `configureAndRunAgents` (lines 79-82):
`splitFiles[i] = append(splitFiles[i], scanner.Text()); i = (i + 1) % len(splitFiles)`.
Indexing outside the slice and reducing modulo zero are run-time panics. -/
def scanLoop : List String → Nat → List (List String) → Except Failure (List (List String))
  | [], _, splitFiles => .ok splitFiles
  | text :: rest, i, splitFiles =>
    match splitFiles[i]? with
    | none => .error (.panic "index out of range")
    | some part =>
      let splitFiles := splitFiles.set i (part ++ [text])
      if splitFiles.length = 0 then .error (.panic "integer divide by zero")
      else scanLoop rest ((i + 1) % splitFiles.length) splitFiles

/-- The split of lines 75-82: one empty slice per agent (`for range t.output.Agents`),
then the scan loop started at `i := 0`. `nAgents` is `len(t.output.Agents)`. -/
def splitFiles (nAgents : Nat) (lines : List String) : Except Failure (List (List String)) :=
  scanLoop lines 0 (List.replicate nAgents [])

/-- Reading `total` lines from the partitions in round-robin order: the `k`-th line read
is line `k / n` of partition `k % n`, where `n` is the number of partitions. -/
def roundRobinRead (P : List (List String)) (total : Nat) : List (Option String) :=
  (List.range total).map fun k => (P.getD (k % P.length) [])[k / P.length]?

/-- The content invariant of the split: slot `r` of partition `p` holds line `n * r + p`
of the lines consumed so far (and nothing when there is no such line). -/
def SlotInv (n : Nat) (seen : List String) (sf : List (List String)) : Prop :=
  ∀ p, p < n → ∀ r, (sf.getD p [])[r]? = seen[n * r + p]?

/-! ## Strings -/

/-- Go `strings.HasPrefix`. -/
def HasPrefix (s pre : String) : Bool := pre.data.isPrefixOf s.data

/-- Go `strings.TrimPrefix`. -/
def TrimPrefix (s pre : String) : String :=
  if pre.data.isPrefixOf s.data then ⟨s.data.drop pre.data.length⟩ else s

/-- Whether `sub` occurs in `s` as a contiguous run. -/
def containsChars : List Char → List Char → Bool
  | [], sub => sub.isPrefixOf []
  | c :: cs, sub => sub.isPrefixOf (c :: cs) || containsChars cs sub

/-- Go `strings.Contains`. -/
def Contains (s sub : String) : Bool := containsChars s.data sub.data

/-- Go `strings.Join`. -/
def Join (elems : List String) (sep : String) : String := sep.intercalate elems

/-! ## Data model

The type declarations live outside `agent.go`; the fields below are the ones the
source reads or the tests set. -/

structure Tags where
  Name : String
deriving DecidableEq, Repr

/-- One record of the fleet output (an agent, an app instance or the proxy). -/
structure Instance where
  PublicIP : String
  PrivateIP : String
  Tags : Tags
deriving DecidableEq, Repr

/-- The fleet output `t.output`. -/
structure Output where
  Agents : List Instance
  Instances : List Instance
  Proxy : Instance
deriving DecidableEq, Repr

structure TerraformDBSettings where
  ClusterIdentifier : String
  DBName : String
deriving DecidableEq, Repr

structure ElasticSearchSettings where
  InstanceCount : Int
  Version : String
  VpcID : String
  SnapshotRepository : String
  SnapshotName : String
deriving DecidableEq, Repr

/-- The deployment configuration `deployment.Config`. -/
structure Config where
  ClusterName : String
  MattermostDownloadURL : String
  LoadTestDownloadURL : String
  AdminEmail : String
  AdminPassword : String
  UsersFilePath : String
  SiteURL : String
  EnableAgentFullLogs : Bool
  TerraformDBSettings : TerraformDBSettings
  ElasticSearchSettings : ElasticSearchSettings
deriving DecidableEq, Repr

/-- The receiver `t *Terraform`: the fields `agent.go` reads. -/
structure Terraform where
  config : Config
  output : Output
deriving DecidableEq, Repr

/-- The section `ConnectionConfiguration` of `loadtest.Config`; `other` stands for every
field of the section that `agent.go` does not name. -/
structure ConnectionConfiguration (ρ : Type) where
  ServerURL : String
  WebSocketURL : String
  AdminEmail : String
  AdminPassword : String
  other : ρ
deriving DecidableEq, Repr

/-- The section `UsersConfiguration` of `loadtest.Config`. -/
structure UsersConfiguration (ρ : Type) where
  UsersFilePath : String
  other : ρ
deriving DecidableEq, Repr

/-- The agent runtime config `loadtest.Config`; `other` stands for every other section. -/
structure LoadtestConfig (ρ : Type) where
  ConnectionConfiguration : ConnectionConfiguration ρ
  UsersConfiguration : UsersConfiguration ρ
  other : ρ
deriving DecidableEq, Repr

/-- An entry of an upload batch (`uploadInfo`). -/
structure uploadInfo where
  srcData : String
  dstPath : String
  msg : String
deriving DecidableEq, Repr

/-! ## External collaborators -/

/-- What `agent.go` uses and does not define: package-level constants, helpers of other
files and library calls. Each is a parameter of the model.
* `appHosts entry` is `fmt.Sprintf(appHosts, entry)`;
* `Stat path` is `os.Stat(path)` followed by `info.Mode().IsRegular()`;
* `Open path` is `os.Open(path)` and the scanner over it: `none` when the file cannot be
  opened, else the lines `scanner.Text()` yields and the final `scanner.Err()`;
* `Parse text` is `template.New("").Parse(text)`, giving the function `tpl.Execute` computes;
* `Quote` is the `%q` verb;
* `batchAppend` is the flag `uploadBatch` hands to `Upload`. -/
structure Ext (ρ : Type) where
  filePrefix : String
  baseAPIServerCmd : String
  apiServiceFile : String
  clientSysctlConfig : String
  limitsConfig : String
  prometheusNodeExporterConfig : String
  appHosts : String → String
  HasProxy : Output → Bool
  getServerURL : Output → Config → String
  Output : Terraform → Except String Output
  ReadConfig : String → Except String (LoadtestConfig ρ)
  MarshalIndent : LoadtestConfig ρ → Except String String
  Stat : String → Except String Bool
  Open : String → Option (List String × Option String)
  Parse : String → Except String (String → String)
  Quote : String → String
  batchAppend : Bool

/-- The remote channel (`ssh.ExtAgent` and the clients it creates) over a world state `σ`.
A client is named by the address it was created for; every call returns the captured
output and the error (`none` for `nil`), and the next state of the world. -/
structure Remote (σ : Type) where
  NewClient : String → σ → Option String × σ
  UploadFile : String → String → String → Bool → σ → (String × Option String) × σ
  Upload : String → String → String → Bool → σ → (String × Option String) × σ
  RunCommand : String → String → σ → (String × Option String) × σ

/-- A remote operation, as issued. -/
inductive Op where
  | newClient (ip : String)
  | uploadFile (ip srcPath dstPath : String) (flag : Bool)
  | upload (ip data dstPath : String) (flag : Bool)
  | runCommand (ip cmd : String)
deriving DecidableEq, Repr

/-- The host an operation addresses. -/
def Op.host : Op → String
  | .newClient ip => ip
  | .uploadFile ip _ _ _ => ip
  | .upload ip _ _ _ => ip
  | .runCommand ip _ => ip

/-- Whether an operation is a remote command. -/
def Op.isCommand : Op → Bool
  | .runCommand _ _ => true
  | _ => false

/-- What a run leaves behind: its result, the operations it issued in order, the world. -/
structure Outcome (σ α : Type) where
  result : Except Failure α
  ops : List Op
  state : σ

/-- A procedure that talks to the remote world. -/
def Act (σ α : Type) : Type := σ → Outcome σ α

/-- Sequencing: the second procedure runs only when the first returned normally. -/
def Act.bind {σ α β : Type} (m : Act σ α) (f : α → Act σ β) : Act σ β := fun s =>
  match m s with
  | ⟨.ok a, ops, s1⟩ => ⟨(f a s1).result, ops ++ (f a s1).ops, (f a s1).state⟩
  | ⟨.error e, ops, s1⟩ => ⟨.error e, ops, s1⟩

/-- Normal return without touching the world. -/
def Act.pure {σ α : Type} (a : α) : Act σ α := fun s => ⟨.ok a, [], s⟩

/-- Go `return err` (or a panic): the procedure stops here. -/
def Act.fail {σ α : Type} (f : Failure) : Act σ α := fun s => ⟨.error f, [], s⟩

instance {σ : Type} : Monad (Act σ) where
  pure := Act.pure
  bind := Act.bind

/-- The call `extAgent.NewClient(ip)`. -/
def NewClient {σ : Type} (R : Remote σ) (ip : String) : Act σ (Option String) := fun s =>
  ⟨.ok (R.NewClient ip s).1, [Op.newClient ip], (R.NewClient ip s).2⟩

/-- The call `sshc.UploadFile(srcPath, dstPath, flag)` on the client of `ip`. -/
def UploadFile {σ : Type} (R : Remote σ) (ip srcPath dstPath : String) (flag : Bool) :
    Act σ (String × Option String) := fun s =>
  ⟨.ok (R.UploadFile ip srcPath dstPath flag s).1, [Op.uploadFile ip srcPath dstPath flag],
    (R.UploadFile ip srcPath dstPath flag s).2⟩

/-- The call `sshc.Upload(reader over data, dstPath, flag)` on the client of `ip`. -/
def Upload {σ : Type} (R : Remote σ) (ip data dstPath : String) (flag : Bool) :
    Act σ (String × Option String) := fun s =>
  ⟨.ok (R.Upload ip data dstPath flag s).1, [Op.upload ip data dstPath flag],
    (R.Upload ip data dstPath flag s).2⟩

/-- The call `sshc.RunCommand(cmd)` on the client of `ip`. -/
def RunCommand {σ : Type} (R : Remote σ) (ip cmd : String) :
    Act σ (String × Option String) := fun s =>
  ⟨.ok (R.RunCommand ip cmd s).1, [Op.runCommand ip cmd], (R.RunCommand ip cmd s).2⟩

/-! ## agent.go -/

/-- The constant `dstUsersFilePath` (line 19). -/
def dstUsersFilePath : String := "/home/ubuntu/users.txt"

/-- The method `generateLoadtestAgentConfig` (lines 21-39). -/
def generateLoadtestAgentConfig {ρ : Type} (X : Ext ρ) (t : Terraform) :
    Except Failure (LoadtestConfig ρ) :=
  match X.ReadConfig "" with
  | .error err => .error (.err err)
  | .ok cfg =>
    let url := X.getServerURL t.output t.config
    let cfg := { cfg with ConnectionConfiguration :=
      { cfg.ConnectionConfiguration with
        ServerURL := "http://" ++ url
        WebSocketURL := "ws://" ++ url
        AdminEmail := t.config.AdminEmail
        AdminPassword := t.config.AdminPassword } }
    let cfg :=
      if t.config.UsersFilePath ≠ "" then
        { cfg with UsersConfiguration :=
          { cfg.UsersConfiguration with UsersFilePath := dstUsersFilePath } }
      else cfg
    .ok cfg

/-- Lines 42-54 of `configureAndRunAgents`: the pair `(uploadBinary, packagePath)`. -/
def packageSource {ρ : Type} (X : Ext ρ) (t : Terraform) : Except Failure (Bool × String) :=
  if HasPrefix t.config.LoadTestDownloadURL X.filePrefix then
    let packagePath := TrimPrefix t.config.LoadTestDownloadURL X.filePrefix
    match X.Stat packagePath with
    | .error err => .error (.err err)
    | .ok isRegular =>
      if !isRegular then
        .error (.err ("load-test package path " ++ packagePath ++ " has to be a regular file"))
      else .ok (true, packagePath)
  else .ok (false, "")

/-- Lines 56-64 of `configureAndRunAgents`: the install command sequence. -/
def installCommands (t : Terraform) (uploadBinary : Bool) : List String :=
  let commands := [
    "rm -rf mattermost-load-test-ng*",
    "tar xzf tmp.tar.gz",
    "mv mattermost-load-test-ng* mattermost-load-test-ng",
    "rm tmp.tar.gz"]
  if !uploadBinary then
    ["wget -O tmp.tar.gz " ++ t.config.LoadTestDownloadURL] ++ commands
  else commands

/-- Lines 66-86 of `configureAndRunAgents`: the credential split. The slice stays empty
when no users file is configured. -/
def splitUsersFile {ρ : Type} (X : Ext ρ) (t : Terraform) :
    Except Failure (List (List String)) :=
  if t.config.UsersFilePath ≠ "" then
    match X.Open t.config.UsersFilePath with
    | none => .error (.err ("error opening UsersFilePath " ++ X.Quote t.config.UsersFilePath))
    | some (lines, scanErr) =>
      match splitFiles t.output.Agents.length lines with
      | .error f => .error f
      | .ok splitFiles =>
        match scanErr with
        | some err => .error (.err ("error reading UsersFilePath "
            ++ X.Quote t.config.UsersFilePath ++ ": " ++ err))
        | none => .ok splitFiles
  else .ok []

/-- Lines 112-115 of `configureAndRunAgents`: the server-launch command. -/
def serverCmd {ρ : Type} (X : Ext ρ) (t : Terraform) : String :=
  if t.config.EnableAgentFullLogs then
    "/bin/bash -c '" ++ X.baseAPIServerCmd ++ " &>> /home/ubuntu/ltapi.log'"
  else X.baseAPIServerCmd

/-- Lines 120-129 of `configureAndRunAgents`: the batch before the hosts-table entry, for
the agent at index `i`; `rendered` is the text the service template produced. -/
def baseBatch {ρ : Type} (X : Ext ρ) (t : Terraform) (splitFiles : List (List String))
    (i : Nat) (rendered : String) : Except Failure (List uploadInfo) :=
  let batch : List uploadInfo := [
    { srcData := TrimPrefix rendered "\n", dstPath := "/lib/systemd/system/ltapi.service",
      msg := "Uploading load-test api service file" },
    { srcData := TrimPrefix X.clientSysctlConfig "\n", dstPath := "/etc/sysctl.conf", msg := "" },
    { srcData := TrimPrefix X.limitsConfig "\n", dstPath := "/etc/security/limits.conf",
      msg := "" },
    { srcData := TrimPrefix X.prometheusNodeExporterConfig "\n",
      dstPath := "/etc/default/prometheus-node-exporter", msg := "" }]
  if t.config.UsersFilePath ≠ "" then
    match splitFiles[i]? with
    | none => .error (.panic "index out of range")
    | some part =>
      .ok (batch ++ [
        { srcData := Join part "\n", dstPath := dstUsersFilePath,
          msg := "Uploading list of users credentials" }])
  else .ok batch

/-- Lines 131-150 of `configureAndRunAgents`: the hosts-table entry appended to `batch`
when `SiteURL` is set. `output.Instances[0]` is read before the proxy is looked at. -/
def hostsBatch {ρ : Type} (X : Ext ρ) (t : Terraform) (batch : List uploadInfo) :
    Except Failure (List uploadInfo) :=
  if t.config.SiteURL ≠ "" then
    match X.Output t with
    | .error err => .error (.err err)
    | .ok output =>
      match output.Instances[0]? with
      | none => .error (.panic "index out of range")
      | some first =>
        let ip := if X.HasProxy output then output.Proxy.PrivateIP else first.PrivateIP
        let proxyHost := ip ++ " " ++ t.config.SiteURL ++ "\n"
        let appHostsFile := X.appHosts proxyHost
        .ok (batch ++ [
          { srcData := appHostsFile, dstPath := "/etc/hosts",
            msg := "Updating /etc/hosts to point to the correct IP" }])
  else .ok batch

/-- Go `return` of a pure computation's failure inside a procedure. -/
def liftExcept {σ α : Type} : Except Failure α → Act σ α
  | .ok a => Act.pure a
  | .error f => Act.fail f

/-- Modelled from the spec: `uploadBatch` (a helper of this repository that is not in
`agent.go`). The entries are uploaded in order through the client; the first upload that
fails fails the batch, and the uploads made before it stay in place. -/
def uploadBatch {σ ρ : Type} (X : Ext ρ) (R : Remote σ) (ip : String) :
    List uploadInfo → Act σ Unit
  | [] => Act.pure ()
  | info :: rest =>
    Act.bind (Upload R ip info.srcData info.dstPath X.batchAppend) fun r =>
      match r.2 with
      | some err => Act.fail (.err ("error uploading file, dstPath: " ++ info.dstPath
          ++ ", output: " ++ X.Quote r.1 ++ ": " ++ err))
      | none => uploadBatch X R ip rest

/-- The body of the loop over the agents in `configureAndRunAgents` (lines 89-163), for
the agent `val` at index `i`. -/
def configureAgent {σ ρ : Type} (X : Ext ρ) (R : Remote σ) (t : Terraform)
    (uploadBinary : Bool) (packagePath : String) (commands : List String)
    (splitFiles : List (List String)) (i : Nat) (val : Instance) : Act σ Unit :=
  Act.bind (NewClient R val.PublicIP) fun err =>
  match err with
  | some err => Act.fail (.err err)
  | none =>
  Act.bind (if uploadBinary then
      Act.bind (UploadFile R val.PublicIP packagePath "/home/ubuntu/tmp.tar.gz" false) fun r =>
        match r.2 with
        | some err => Act.fail (.err ("error uploading file " ++ X.Quote packagePath
            ++ ", output: " ++ X.Quote r.1 ++ ": " ++ err))
        | none => Act.pure ()
    else Act.pure ()) fun _ =>
  let cmd := Join commands " && "
  Act.bind (RunCommand R val.PublicIP cmd) fun r =>
  match r.2 with
  | some err => Act.fail (.err ("error running command, got output: " ++ X.Quote r.1
      ++ ": " ++ err))
  | none =>
  match X.Parse X.apiServiceFile with
  | .error err => Act.fail (.err ("could not parse agent service template: " ++ err))
  | .ok tpl =>
  let buf := tpl (serverCmd X t)
  Act.bind (liftExcept (baseBatch X t splitFiles i buf)) fun batch =>
  Act.bind (liftExcept (hostsBatch X t batch)) fun batch =>
  Act.bind (fun s =>
      match uploadBatch X R val.PublicIP batch s with
      | ⟨.error (.err err), ops, s1⟩ => ⟨.error (.err ("batch upload failed: " ++ err)), ops, s1⟩
      | o => o) fun _ =>
  Act.bind (RunCommand R val.PublicIP "sudo sysctl -p") fun r =>
  match r.2 with
  | some err => Act.fail (.err ("error running command, got output: " ++ X.Quote r.1
      ++ ": " ++ err))
  | none =>
  Act.bind (RunCommand R val.PublicIP
    "sudo systemctl daemon-reload && sudo service ltapi restart") fun r =>
  match r.2 with
  | some err => Act.fail (.err ("error running command, got output: " ++ X.Quote r.1
      ++ ": " ++ err))
  | none => Act.pure ()

/-- The loop `for i, val := range t.output.Agents` (line 88): the agents are configured
one after the other, and the first failure returns from the function. -/
def agentsLoop {σ ρ : Type} (X : Ext ρ) (R : Remote σ) (t : Terraform)
    (uploadBinary : Bool) (packagePath : String) (commands : List String)
    (splitFiles : List (List String)) : Nat → List Instance → Act σ Unit
  | _, [] => Act.pure ()
  | i, val :: rest =>
    Act.bind (configureAgent X R t uploadBinary packagePath commands splitFiles i val) fun _ =>
      agentsLoop X R t uploadBinary packagePath commands splitFiles (i + 1) rest

/-- The method `configureAndRunAgents` (lines 41-166). -/
def configureAndRunAgents {σ ρ : Type} (X : Ext ρ) (R : Remote σ) (t : Terraform) :
    Act σ Unit :=
  Act.bind (liftExcept (packageSource X t)) fun pkg =>
  let commands := installCommands t pkg.1
  Act.bind (liftExcept (splitUsersFile X t)) fun splitFiles =>
  agentsLoop X R t pkg.1 pkg.2 commands splitFiles 0 t.output.Agents

/-- The command line of the data initialization (line 194). -/
def initCommand (name : String) : String :=
  "cd mattermost-load-test-ng && ./bin/ltagent init --user-prefix '" ++ name ++ "'"

/-- The method `initLoadtest` (lines 168-207). -/
def initLoadtest {σ ρ : Type} (X : Ext ρ) (R : Remote σ) (t : Terraform) (initData : Bool) :
    Act σ Unit :=
  match t.output.Agents with
  | [] => Act.fail (.err "there are no agents to initialize load-test")
  | first :: _ =>
  let ip := first.PublicIP
  Act.bind (NewClient R ip) fun err =>
  match err with
  | some err => Act.fail (.err err)
  | none =>
  Act.bind (liftExcept (generateLoadtestAgentConfig X t)) fun cfg =>
  match X.MarshalIndent cfg with
  | .error err => Act.fail (.err err)
  | .ok data =>
  let dstPath := "/home/ubuntu/mattermost-load-test-ng/config/config.json"
  Act.bind (Upload R ip data dstPath false) fun r =>
  match r.2 with
  | some err => Act.fail (.err ("error uploading file, output: " ++ X.Quote r.1 ++ ": " ++ err))
  | none =>
  if initData && t.config.TerraformDBSettings.ClusterIdentifier == "" then
    let cmd := initCommand first.Tags.Name
    Act.bind (RunCommand R ip cmd) fun r =>
    match r.2 with
    | some err =>
      if Contains r.1 "with that name already exists" then Act.pure ()
      else Act.fail (.err ("error running ssh command, output: " ++ X.Quote r.1
        ++ ", error: " ++ err))
    | none => Act.pure ()
  else Act.pure ()

/-! ## Validation of the deployment configuration

`Config.IsValid` and `validateElasticSearchConfig` are exercised by
`deployment/config_test.go`; their bodies are not part of the sources at hand. -/

/-- The error kinds of the validation. -/
inductive ValidationError where
  | InvalidDownloadSource
  | IncompleteDBSettings
  | MissingNetworkIdentifier
  | InvalidSearchDomainName
deriving DecidableEq, Repr

/-- Modelled from the spec: the scheme of a download URI, the text before its first colon
(`none` for a string without one, such as a bare filesystem path). The URI parser is not
in the sources at hand. -/
def uriScheme (url : String) : Option String :=
  if url.data.contains ':' then some ⟨url.data.takeWhile (fun c => c != ':')⟩ else none

/-- Modelled from the spec: the URI scheme check of `Config.IsValid` (not in the sources at
hand): the scheme must be `http`, `https` or `file`. -/
def validDownloadSource (url : String) : Bool :=
  uriScheme url == some "http" || uriScheme url == some "https" || uriScheme url == some "file"

/-- Modelled from the spec: the domain-label grammar of the search service (the pattern
itself is not in the sources at hand): lowercase letters, digits and hyphens only, starting
with a letter, of length at most `maxLen`. The spec gives no figure for the bound, so it is
a parameter. -/
def validDomainLabel (maxLen : Nat) (name : String) : Bool :=
  match name.data with
  | [] => false
  | c :: cs =>
    c.isLower && cs.all (fun d => d.isLower || d.isDigit || d == '-')
      && decide (name.data.length ≤ maxLen)

/-- Modelled from the spec: `Config.validateElasticSearchConfig` (not in the sources at
hand; `config_test.go` calls it). The check runs only when `InstanceCount > 0`: the network
identifier must be non-empty and the cluster name must be a valid domain label. -/
def validateElasticSearchConfig (maxLen : Nat) (c : Config) : Except ValidationError Unit :=
  if c.ElasticSearchSettings.InstanceCount > 0 then
    if c.ElasticSearchSettings.VpcID = "" then .error .MissingNetworkIdentifier
    else if validDomainLabel maxLen c.ClusterName then .ok ()
    else .error .InvalidSearchDomainName
  else .ok ()

/-- Modelled from the spec: `Config.IsValid` (not in the sources at hand; `config_test.go`
calls it). The URI scheme check on both download URLs, the database pairing check and the
search-domain check, in the order the spec lists them. -/
def IsValid (maxLen : Nat) (c : Config) : Except ValidationError Unit :=
  if !validDownloadSource c.MattermostDownloadURL then .error .InvalidDownloadSource
  else if !validDownloadSource c.LoadTestDownloadURL then .error .InvalidDownloadSource
  else if c.TerraformDBSettings.ClusterIdentifier ≠ "" ∧ c.TerraformDBSettings.DBName = "" then
    .error .IncompleteDBSettings
  else validateElasticSearchConfig maxLen c

/-! ## A concrete deployment, for evaluating the model -/

/-- A baseline agent config, its unnamed fields collapsed into numbers. -/
def demoBase : LoadtestConfig Nat :=
  { ConnectionConfiguration :=
      { ServerURL := "http://localhost:8065", WebSocketURL := "ws://localhost:8065",
        AdminEmail := "sysadmin@sample.mattermost.com", AdminPassword := "Sys@dmin-sample1",
        other := 1 }
    UsersConfiguration := { UsersFilePath := "", other := 2 }
    other := 3 }

/-- External collaborators of a test deployment: a users file `users.txt` of five lines,
a proxy recognised by its private address, a server URL taken from the proxy. -/
def demoExt : Ext Nat :=
  { filePrefix := "file://"
    baseAPIServerCmd := "/home/ubuntu/mattermost-load-test-ng/bin/ltapi"
    apiServiceFile := "\n[Service]\nExecStart="
    clientSysctlConfig := "\nnet.ipv4.ip_local_port_range = 1025 65000"
    limitsConfig := "\n* soft nofile 100000"
    prometheusNodeExporterConfig := "\nARGS=\"--collector.ethtool\""
    appHosts := fun entry => "127.0.0.1 localhost\n" ++ entry
    HasProxy := fun o => o.Proxy.PrivateIP != ""
    getServerURL := fun o _ => o.Proxy.PrivateIP
    Output := fun t => .ok t.output
    ReadConfig := fun _ => .ok demoBase
    MarshalIndent := fun cfg => .ok cfg.ConnectionConfiguration.ServerURL
    Stat := fun _ => .ok true
    Open := fun path => if path = "users.txt" then some (["a", "b", "c", "d", "e"], none)
      else none
    Parse := fun text => .ok fun cmd => text ++ cmd
    Quote := fun s => "\"" ++ s ++ "\""
    batchAppend := true }

/-- A remote world without state: no client can be created for `badHost`, and the data
initialization command fails with the captured output `seedOut`; all else succeeds. -/
def demoRemote (badHost seedOut : String) : Remote Unit :=
  { NewClient := fun ip s => (if ip = badHost then some "ssh: handshake failed" else none, s)
    UploadFile := fun _ _ _ _ s => (("", none), s)
    Upload := fun _ _ _ _ s => (("", none), s)
    RunCommand := fun _ cmd s =>
      if HasPrefix cmd "cd mattermost-load-test-ng" then
        ((seedOut, some "Process exited with status 1"), s)
      else (("", none), s) }

/-- An empty record. -/
def noInstance : Instance := { PublicIP := "", PrivateIP := "", Tags := { Name := "" } }

/-- The configuration `baseConfig()` of `TestConfigIsValid`. -/
def baseConfig : Config :=
  { ClusterName := ""
    MattermostDownloadURL := "https://latest.mattermost.com/mattermost-enterprise-linux"
    LoadTestDownloadURL := "https://github.com/mattermost/mattermost-load-test-ng/releases/download/v1.20.0/mattermost-load-test-ng-v1.20.0-linux-amd64.tar.gz"
    AdminEmail := ""
    AdminPassword := ""
    UsersFilePath := ""
    SiteURL := ""
    EnableAgentFullLogs := false
    TerraformDBSettings := { ClusterIdentifier := "", DBName := "" }
    ElasticSearchSettings :=
      { InstanceCount := 0, Version := "", VpcID := "", SnapshotRepository := "",
        SnapshotName := "" } }

/-- The configuration `baseValidConfig()` of `TestValidateElasticSearchConfig`. -/
def baseValidConfig : Config :=
  { baseConfig with
    ClusterName := "clustername"
    ElasticSearchSettings :=
      { InstanceCount := 1, Version := "OpenSearch_2.7", VpcID := "vpc-01234567890abcdef",
        SnapshotRepository := "somerepo", SnapshotName := "somename" } }

/-- A deployment of two agents behind a proxy at `10.0.0.5`, with one app instance. -/
def demoTerraform : Terraform :=
  { config :=
      { baseConfig with
        AdminEmail := "admin@example.com"
        AdminPassword := "secret"
        UsersFilePath := "users.txt"
        SiteURL := "test.example.com" }
    output :=
      { Agents := [
          { PublicIP := "203.0.113.1", PrivateIP := "10.0.1.1", Tags := { Name := "lt-agent-0" } },
          { PublicIP := "203.0.113.2", PrivateIP := "10.0.1.2", Tags := { Name := "lt-agent-1" } }]
        Instances := [
          { PublicIP := "203.0.113.9", PrivateIP := "10.0.0.9", Tags := { Name := "lt-app-0" } }]
        Proxy := { PublicIP := "203.0.113.5", PrivateIP := "10.0.0.5",
                   Tags := { Name := "lt-proxy" } } } }

/-- The test deployment with a proxy and an empty list of app instances. -/
def proxyOnlyTerraform : Terraform :=
  { demoTerraform with output := { demoTerraform.output with Instances := [] } }

/-- The configuration of a test of `config_test.go`: `base` with the database settings
set to the given cluster identifier and database name. -/
def withDB (base : Config) (clusterIdentifier dbName : String) : Config :=
  { base with TerraformDBSettings := { ClusterIdentifier := clusterIdentifier, DBName := dbName } }

/-- The test deployment with no agent at all (the users file `users.txt` is configured). -/
def noAgentsTerraform : Terraform :=
  { demoTerraform with output := { demoTerraform.output with Agents := [] } }

/-! ## Predicates on runs -/

/-- Every operation the procedure issues, from whatever state, addresses the host `ip`. -/
def Targets {σ α : Type} (ip : String) (m : Act σ α) : Prop :=
  ∀ s, ∀ op ∈ (m s).ops, op.host = ip

/-! # Theorems -/

/-! ### Loop invariants -/

/-- Invariant rule for the scan loop: a property of (lines consumed, partitions) that
every iteration preserves holds when the loop ends, and the loop ends without a panic. -/
theorem scanLoop_inv {n : Nat} (hn : 0 < n) (Inv : List String → List (List String) → Prop)
    (hstep : ∀ (seen : List String) (sf : List (List String)) (text : String)
      (part : List String), sf.length = n → sf[seen.length % n]? = some part → Inv seen sf →
      Inv (seen ++ [text]) (sf.set (seen.length % n) (part ++ [text]))) :
    ∀ (rest seen : List String) (sf : List (List String)), sf.length = n → Inv seen sf →
      ∃ P, scanLoop rest (seen.length % n) sf = .ok P ∧ P.length = n ∧ Inv (seen ++ rest) P := by
  intro rest
  induction rest with
  | nil =>
    intro seen sf hlen hinv
    exact ⟨sf, by simp [scanLoop], hlen, by simpa using hinv⟩
  | cons text rest ih =>
    intro seen sf hlen hinv
    have hlt : seen.length % n < sf.length := by rw [hlen]; exact Nat.mod_lt _ hn
    have hget : sf[seen.length % n]? = some (sf[seen.length % n]) := List.getElem?_eq_getElem hlt
    have hnext : (seen.length % n + 1) % n = (seen ++ [text]).length % n := by
      rw [Nat.mod_add_mod]; simp
    have hlen2 : (sf.set (seen.length % n) (sf[seen.length % n] ++ [text])).length = n := by
      rw [List.length_set]; exact hlen
    obtain ⟨P, hP, hPlen, hPinv⟩ :=
      ih (seen ++ [text]) _ hlen2 (hstep seen sf text _ hlen hget hinv)
    refine ⟨P, ?_, hPlen, by simpa using hPinv⟩
    rw [scanLoop, hget]
    simp only [List.length_set, hlen, Nat.pos_iff_ne_zero.mp hn, if_false, hnext]
    exact hP

/-- Comparison of positions `n * r + p` with `p < n`, as used for the slot of a line. -/
theorem slot_lt_iff {n r p q m : Nat} (hp : p < n) (hm : m < n) :
    n * r + p < n * q + m ↔ r < q ∨ (r = q ∧ p < m) := by
  rcases Nat.lt_trichotomy r q with h | h | h
  · have h1 : n * (r + 1) ≤ n * q := Nat.mul_le_mul_left n h
    rw [Nat.mul_succ] at h1
    constructor
    · intro _; exact Or.inl h
    · intro _; omega
  · subst h
    constructor
    · intro h2; right; exact ⟨rfl, by omega⟩
    · rintro (h2 | ⟨_, h2⟩) <;> omega
  · have h1 : n * (q + 1) ≤ n * r := Nat.mul_le_mul_left n h
    rw [Nat.mul_succ] at h1
    constructor
    · intro h2; omega
    · rintro (h2 | ⟨h2, _⟩) <;> omega

theorem slotInv_length {n : Nat} (hn : 0 < n) {seen : List String} {sf : List (List String)}
    (hinv : SlotInv n seen sf) : (sf.getD (seen.length % n) []).length = seen.length / n := by
  have hm : seen.length % n < n := Nat.mod_lt _ hn
  have hk : n * (seen.length / n) + seen.length % n = seen.length := Nat.div_add_mod _ _
  apply Nat.le_antisymm
  · have h := hinv _ hm (seen.length / n)
    rw [hk, List.getElem?_eq_none_iff.mpr (Nat.le_refl _)] at h
    exact List.getElem?_eq_none_iff.mp h
  · by_contra hlt
    have hlt : (sf.getD (seen.length % n) []).length < seen.length / n := Nat.lt_of_not_le hlt
    have h := hinv _ hm (sf.getD (seen.length % n) []).length
    rw [List.getElem?_eq_none_iff.mpr (Nat.le_refl _)] at h
    have h2 := List.getElem?_eq_none_iff.mp h.symm
    have h3 : n * (sf.getD (seen.length % n) []).length + seen.length % n
        < n * (seen.length / n) + seen.length % n :=
      (slot_lt_iff hm hm).mpr (Or.inl hlt)
    omega

theorem slotInv_step {n : Nat} (hn : 0 < n) (seen : List String) (sf : List (List String))
    (text : String) (part : List String) (_hlen : sf.length = n)
    (hget : sf[seen.length % n]? = some part) (hinv : SlotInv n seen sf) :
    SlotInv n (seen ++ [text]) (sf.set (seen.length % n) (part ++ [text])) := by
  have hm : seen.length % n < n := Nat.mod_lt _ hn
  have hk : n * (seen.length / n) + seen.length % n = seen.length := Nat.div_add_mod _ _
  have hpart : sf.getD (seen.length % n) [] = part := by
    rw [List.getD_eq_getElem?_getD, hget]; rfl
  have hplen : part.length = seen.length / n := by
    rw [← hpart]; exact slotInv_length hn hinv
  intro p hp r
  have hcmp := @slot_lt_iff n r p (seen.length / n) (seen.length % n) hp hm
  rw [hk] at hcmp
  rw [List.getD_eq_getElem?_getD, List.getElem?_set]
  by_cases hpe : seen.length % n = p
  · subst hpe
    have hlt : seen.length % n < sf.length := by rw [_hlen]; exact hm
    simp only [if_true, hlt, Option.getD_some]
    have hold := hinv _ hm r
    rw [hpart] at hold
    rcases Nat.lt_trichotomy r (seen.length / n) with h | h | h
    · have h1 : n * r + seen.length % n < seen.length := hcmp.mpr (Or.inl h)
      rw [List.getElem?_append_left (by omega), List.getElem?_append_left h1]
      exact hold
    · subst h
      rw [List.getElem?_append_right (by omega), List.getElem?_append_right (by omega)]
      simp [hplen, hk]
    · have h1 : ¬ n * r + seen.length % n < seen.length := by
        rw [hcmp]; omega
      have h2 : n * r + seen.length % n ≠ seen.length := by
        intro heq
        have h3 : n * (seen.length / n + 1) ≤ n * r := Nat.mul_le_mul_left n h
        rw [Nat.mul_succ] at h3
        omega
      have h4 : (part ++ [text]).length ≤ r := by
        rw [List.length_append, hplen]; simpa using h
      have h5 : (seen ++ [text]).length ≤ n * r + seen.length % n := by
        rw [List.length_append]; simp only [List.length_singleton]; omega
      rw [List.getElem?_eq_none_iff.mpr h4, List.getElem?_eq_none_iff.mpr h5]
  · simp only [hpe, if_false]
    have hold := hinv p hp r
    rw [List.getD_eq_getElem?_getD] at hold
    rw [hold]
    by_cases h1 : n * r + p < seen.length
    · rw [List.getElem?_append_left h1]
    · have h2 : n * r + p ≠ seen.length := by
        intro heq
        apply hpe
        have : (n * r + p) % n = p := by
          rw [Nat.mul_add_mod]; exact Nat.mod_eq_of_lt hp
        rw [← heq, this]
      rw [List.getElem?_eq_none_iff.mpr (by omega),
        List.getElem?_eq_none_iff.mpr (by simp; omega)]

/-- The split never fails for a positive number of agents, and slot `r` of partition `p`
holds exactly line `n * r + p` of the input (nothing when there is no such line). -/
theorem splitFiles_slots {n : Nat} (hn : 0 < n) (L : List String) :
    ∃ P, splitFiles n L = .ok P ∧ P.length = n ∧ SlotInv n L P := by
  have h := scanLoop_inv hn (SlotInv n) (slotInv_step hn) L [] (List.replicate n [])
    (by simp) (by
      intro p hp r
      simp [List.getD_eq_getElem?_getD, List.getElem?_replicate, hp])
  simpa [splitFiles] using h

/-- Appending one line to one partition adds one to the total number of lines held. -/
theorem sum_length_set (sf : List (List String)) (i : Nat) (part : List String)
    (text : String) (h : sf[i]? = some part) :
    ((sf.set i (part ++ [text])).map List.length).sum = (sf.map List.length).sum + 1 := by
  induction sf generalizing i with
  | nil => simp at h
  | cons hd tl ih =>
    cases i with
    | zero =>
      simp only [List.getElem?_cons_zero, Option.some.injEq] at h
      subst h
      simp [List.set]
      omega
    | succ j =>
      simp only [List.getElem?_cons_succ] at h
      simp only [List.set, List.map_cons, List.sum_cons, ih j h]
      omega

/-- The partitions the split returns hold as many lines as were read. -/
theorem splitFiles_total {n : Nat} (hn : 0 < n) (L : List String) :
    ∃ P, splitFiles n L = .ok P ∧ (P.map List.length).sum = L.length := by
  have h := scanLoop_inv hn (fun seen sf => (sf.map List.length).sum = seen.length)
    (by
      intro seen sf text part _ hget hinv
      rw [sum_length_set sf _ part text hget, hinv]; simp)
    L [] (List.replicate n []) (by simp) (by simp)
  obtain ⟨P, hP, _, hsum⟩ := h
  exact ⟨P, by simpa [splitFiles] using hP, by simpa using hsum⟩

/-- C1: for a positive number `n` of agents the split of `configureAndRunAgents` returns `n`
partitions; the line at index `i` is line `i / n` of partition `i % n`; conversely slot `r`
of partition `p` holds line `n * r + p` and nothing else, so each partition keeps the input
order; the partitions hold as many lines as the input; and reading them in round-robin
order gives back the input. -/
theorem splitFiles_round_robin (n : Nat) (hn : 0 < n) (L : List String) :
    ∃ P, splitFiles n L = .ok P ∧ P.length = n ∧
      (∀ i, i < L.length → (P.getD (i % n) [])[i / n]? = some (L.getD i "")) ∧
      (∀ p, p < n → ∀ r, (P.getD p [])[r]? = L[n * r + p]?) ∧
      (P.map List.length).sum = L.length ∧
      roundRobinRead P L.length = L.map some := by
  obtain ⟨P, hP, hlen, hinv⟩ := splitFiles_slots hn L
  obtain ⟨P2, hP2, hsum⟩ := splitFiles_total hn L
  have hPP : P2 = P := by
    rw [hP] at hP2; injection hP2 with h; exact h.symm
  subst hPP
  have hidx : ∀ i, i < L.length → (P2.getD (i % n) [])[i / n]? = some (L.getD i "") := by
    intro i hi
    rw [hinv (i % n) (Nat.mod_lt _ hn) (i / n), Nat.div_add_mod,
      List.getD_eq_getElem?_getD, List.getElem?_eq_getElem hi]
    rfl
  refine ⟨P2, hP, hlen, hidx, hinv, hsum, ?_⟩
  apply List.ext_getElem
  · simp [roundRobinRead]
  · intro k h1 h2
    have hk : k < L.length := by simpa [roundRobinRead] using h1
    simp only [roundRobinRead, List.getElem_map, List.getElem_range, hlen]
    rw [hidx k hk, List.getD_eq_getElem?_getD, List.getElem?_eq_getElem hk]
    rfl

/-- C1, on the example of the spec: five lines over two agents. -/
theorem splitFiles_round_robin_witness :
    splitFiles 2 ["a", "b", "c", "d", "e"] = .ok [["a", "c", "e"], ["b", "d"]] ∧
    ∃ P, splitFiles 2 ["a", "b", "c", "d", "e"] = .ok P ∧ P.length = 2 ∧
      (∀ i, i < ["a", "b", "c", "d", "e"].length →
        (P.getD (i % 2) [])[i / 2]? = some (["a", "b", "c", "d", "e"].getD i "")) ∧
      (∀ p, p < 2 → ∀ r, (P.getD p [])[r]? = ["a", "b", "c", "d", "e"][2 * r + p]?) ∧
      (P.map List.length).sum = ["a", "b", "c", "d", "e"].length ∧
      roundRobinRead P ["a", "b", "c", "d", "e"].length = ["a", "b", "c", "d", "e"].map some :=
  ⟨rfl, splitFiles_round_robin 2 (by decide) ["a", "b", "c", "d", "e"]⟩

/-- C2: for a positive number `n` of agents the split returns `n` partitions whose sizes
differ by at most one and add up to the number of lines read; an empty input gives `n`
empty partitions and no error. -/
theorem splitFiles_balanced (n : Nat) (hn : 0 < n) (L : List String) :
    (∃ P, splitFiles n L = .ok P ∧ P.length = n ∧
      (∀ p q, p < n → q < n → (P.getD p []).length ≤ (P.getD q []).length + 1) ∧
      (P.map List.length).sum = L.length) ∧
    splitFiles n [] = .ok (List.replicate n []) := by
  refine ⟨?_, by simp [splitFiles, scanLoop]⟩
  obtain ⟨P, hP, hlen, hinv⟩ := splitFiles_slots hn L
  obtain ⟨P2, hP2, hsum⟩ := splitFiles_total hn L
  have hPP : P2 = P := by
    rw [hP] at hP2; injection hP2 with h; exact h.symm
  subst hPP
  refine ⟨P2, hP, hlen, ?_, hsum⟩
  intro p q hp hq
  by_contra hgt
  have hgt : (P2.getD q []).length + 1 < (P2.getD p []).length := Nat.lt_of_not_le hgt
  have h1 := hinv p hp ((P2.getD q []).length + 1)
  rw [List.getElem?_eq_getElem hgt] at h1
  have h2 := hinv q hq (P2.getD q []).length
  rw [List.getElem?_eq_none_iff.mpr (Nat.le_refl _)] at h2
  have h3 : L.length ≤ n * (P2.getD q []).length + q := List.getElem?_eq_none_iff.mp h2.symm
  have h4 : n * ((P2.getD q []).length + 1) + p < L.length := by
    by_contra hge
    rw [List.getElem?_eq_none_iff.mpr (Nat.le_of_not_lt hge)] at h1
    exact Option.noConfusion h1
  rw [Nat.mul_succ] at h4
  omega

/-- C2, on the example of the spec: sizes three and two. -/
theorem splitFiles_balanced_witness :
    (∃ P, splitFiles 2 ["a", "b", "c", "d", "e"] = .ok P ∧ P.length = 2 ∧
      (∀ p q, p < 2 → q < 2 → (P.getD p []).length ≤ (P.getD q []).length + 1) ∧
      (P.map List.length).sum = ["a", "b", "c", "d", "e"].length) ∧
    splitFiles 2 [] = .ok (List.replicate 2 []) :=
  splitFiles_balanced 2 (by decide) ["a", "b", "c", "d", "e"]

/-- C3: with no agent the split does not report an error value. Any first line is stored
through `splitFiles[0]` of an empty slice, a run-time panic; and a users file without lines
is split into nothing, without any failure. On the test deployment without agents, whose
users file has five lines, `configureAndRunAgents` ends in that panic. -/
theorem splitFiles_no_agents (text : String) (rest : List String) :
    splitFiles 0 (text :: rest) = .error (.panic "index out of range") ∧
    splitFiles 0 [] = .ok [] ∧
    (configureAndRunAgents demoExt (demoRemote "" "") noAgentsTerraform ()).result
      = .error (.panic "index out of range") := by
  refine ⟨?_, ?_, rfl⟩ <;> simp [splitFiles, scanLoop]

/-- C4: when the baseline config is read, `generateLoadtestAgentConfig` returns it with
`ServerURL`, `WebSocketURL`, `AdminEmail` and `AdminPassword` replaced as documented,
`UsersFilePath` replaced by the fixed remote path exactly when the deployment names a users
file, and every other field as in the baseline. -/
theorem generateLoadtestAgentConfig_frame {ρ : Type} (X : Ext ρ) (t : Terraform)
    (base : LoadtestConfig ρ) (hread : X.ReadConfig "" = .ok base) :
    generateLoadtestAgentConfig X t = .ok
      { ConnectionConfiguration :=
          { ServerURL := "http://" ++ X.getServerURL t.output t.config
            WebSocketURL := "ws://" ++ X.getServerURL t.output t.config
            AdminEmail := t.config.AdminEmail
            AdminPassword := t.config.AdminPassword
            other := base.ConnectionConfiguration.other }
        UsersConfiguration :=
          { UsersFilePath :=
              if t.config.UsersFilePath ≠ "" then "/home/ubuntu/users.txt"
              else base.UsersConfiguration.UsersFilePath
            other := base.UsersConfiguration.other }
        other := base.other } := by
  unfold generateLoadtestAgentConfig
  rw [hread]
  by_cases h : t.config.UsersFilePath = "" <;> simp [h, dstUsersFilePath]

/-- C4, on the test deployment: a users file is configured, the proxy gives the URL. -/
theorem generateLoadtestAgentConfig_frame_witness :
    demoExt.ReadConfig "" = .ok demoBase ∧
    generateLoadtestAgentConfig demoExt demoTerraform = .ok
      { ConnectionConfiguration :=
          { ServerURL := "http://10.0.0.5"
            WebSocketURL := "ws://10.0.0.5"
            AdminEmail := "admin@example.com"
            AdminPassword := "secret"
            other := 1 }
        UsersConfiguration := { UsersFilePath := "/home/ubuntu/users.txt", other := 2 }
        other := 3 } :=
  ⟨rfl, generateLoadtestAgentConfig_frame demoExt demoTerraform demoBase rfl⟩

/-- What `initLoadtest` does once the config has been uploaded to the first agent: nothing
more unless seeding is asked for and no database cluster is configured; else the data
initialization command, whose failure is returned unless the captured output says that an
entity of that name already exists. -/
theorem initLoadtest_after_upload {σ ρ : Type} (X : Ext ρ) (R : Remote σ) (t : Terraform)
    (initData : Bool) (s : σ) (first : Instance) (rest : List Instance)
    (cfg : LoadtestConfig ρ) (data : String)
    (hagents : t.output.Agents = first :: rest)
    (hclient : (R.NewClient first.PublicIP s).1 = none)
    (hcfg : generateLoadtestAgentConfig X t = .ok cfg)
    (hjson : X.MarshalIndent cfg = .ok data)
    (hupload : (R.Upload first.PublicIP data
      "/home/ubuntu/mattermost-load-test-ng/config/config.json" false
      (R.NewClient first.PublicIP s).2).1.2 = none) :
    initLoadtest X R t initData s =
      let s2 := (R.Upload first.PublicIP data
        "/home/ubuntu/mattermost-load-test-ng/config/config.json" false
        (R.NewClient first.PublicIP s).2).2
      let before := [Op.newClient first.PublicIP, Op.upload first.PublicIP data
        "/home/ubuntu/mattermost-load-test-ng/config/config.json" false]
      if initData = true ∧ t.config.TerraformDBSettings.ClusterIdentifier = "" then
        let r := R.RunCommand first.PublicIP (initCommand first.Tags.Name) s2
        ⟨match r.1.2 with
          | none => .ok ()
          | some err =>
            if Contains r.1.1 "with that name already exists" then .ok ()
            else .error (.err ("error running ssh command, output: " ++ X.Quote r.1.1
              ++ ", error: " ++ err)),
          before ++ [Op.runCommand first.PublicIP (initCommand first.Tags.Name)], r.2⟩
      else ⟨.ok (), before, s2⟩ := by
  unfold initLoadtest
  rw [hagents]
  simp only [Act.bind, NewClient, hclient, liftExcept, hcfg, Act.pure, hjson, Upload, hupload]
  by_cases hseed : initData = true ∧ t.config.TerraformDBSettings.ClusterIdentifier = ""
  · obtain ⟨h1, h2⟩ := hseed
    simp only [h1, h2, RunCommand]
    rcases hr : (R.RunCommand first.PublicIP (initCommand first.Tags.Name)
      (R.Upload first.PublicIP data
        "/home/ubuntu/mattermost-load-test-ng/config/config.json" false
        (R.NewClient first.PublicIP s).2).2).1.2 with _ | err
    · simp [Act.bind, RunCommand, hr, Act.pure]
    · by_cases hc : Contains (R.RunCommand first.PublicIP (initCommand first.Tags.Name)
        (R.Upload first.PublicIP data
          "/home/ubuntu/mattermost-load-test-ng/config/config.json" false
          (R.NewClient first.PublicIP s).2).2).1.1 "with that name already exists" = true
      · simp [Act.bind, RunCommand, hr, hc, Act.pure]
      · simp [Act.bind, RunCommand, hr, hc, Act.fail]
  · have hb : (initData && t.config.TerraformDBSettings.ClusterIdentifier == "") = false := by
      rcases Bool.eq_false_or_eq_true initData with h1 | h1
      · by_cases h2 : t.config.TerraformDBSettings.ClusterIdentifier = ""
        · exact absurd ⟨h1, h2⟩ hseed
        · simp [h2]
      · simp [h1]
    simp [hb, hseed, Act.pure]

/-- C5: when the data initialization command is issued and fails, `initLoadtest` returns
success if the text the command printed (its captured output) contains
`with that name already exists`, and otherwise an error that carries the captured output
and the command's error. -/
theorem initLoadtest_seed_failure {σ ρ : Type} (X : Ext ρ) (R : Remote σ) (t : Terraform)
    (s : σ) (first : Instance) (rest : List Instance) (cfg : LoadtestConfig ρ)
    (data out err : String)
    (hagents : t.output.Agents = first :: rest)
    (hclient : (R.NewClient first.PublicIP s).1 = none)
    (hcfg : generateLoadtestAgentConfig X t = .ok cfg)
    (hjson : X.MarshalIndent cfg = .ok data)
    (hupload : (R.Upload first.PublicIP data
      "/home/ubuntu/mattermost-load-test-ng/config/config.json" false
      (R.NewClient first.PublicIP s).2).1.2 = none)
    (hdb : t.config.TerraformDBSettings.ClusterIdentifier = "")
    (hrun : (R.RunCommand first.PublicIP (initCommand first.Tags.Name)
      (R.Upload first.PublicIP data
        "/home/ubuntu/mattermost-load-test-ng/config/config.json" false
        (R.NewClient first.PublicIP s).2).2).1 = (out, some err)) :
    (initLoadtest X R t true s).result =
      if Contains out "with that name already exists" then .ok ()
      else .error (.err ("error running ssh command, output: " ++ X.Quote out
        ++ ", error: " ++ err)) := by
  rw [initLoadtest_after_upload X R t true s first rest cfg data hagents hclient hcfg hjson
    hupload]
  simp [hdb, hrun]

/-- C5, on the test deployment: the output `team with that name already exists` gives
success, the output `connection refused` gives an error that quotes it. -/
theorem initLoadtest_seed_failure_witness :
    (initLoadtest demoExt (demoRemote "" "team with that name already exists")
      demoTerraform true ()).result = .ok () ∧
    (initLoadtest demoExt (demoRemote "" "connection refused") demoTerraform true ()).result =
      .error (.err ("error running ssh command, output: \"connection refused\""
        ++ ", error: Process exited with status 1")) :=
  ⟨(initLoadtest_seed_failure demoExt (demoRemote "" "team with that name already exists")
      demoTerraform () _ _ _ "http://10.0.0.5" "team with that name already exists"
      "Process exited with status 1" rfl rfl rfl rfl rfl rfl rfl).trans rfl,
   (initLoadtest_seed_failure demoExt (demoRemote "" "connection refused")
      demoTerraform () _ _ _ "http://10.0.0.5" "connection refused"
      "Process exited with status 1" rfl rfl rfl rfl rfl rfl rfl).trans rfl⟩

/-- C6: once the config has been uploaded to the first agent, the remote commands that
`initLoadtest` runs are the data initialization command alone, on the first agent and with
its name tag as user prefix, when `initData` is set and no database cluster identifier is
configured; otherwise it runs no remote command and returns success. -/
theorem initLoadtest_seed_gate {σ ρ : Type} (X : Ext ρ) (R : Remote σ) (t : Terraform)
    (initData : Bool) (s : σ) (first : Instance) (rest : List Instance)
    (cfg : LoadtestConfig ρ) (data : String)
    (hagents : t.output.Agents = first :: rest)
    (hclient : (R.NewClient first.PublicIP s).1 = none)
    (hcfg : generateLoadtestAgentConfig X t = .ok cfg)
    (hjson : X.MarshalIndent cfg = .ok data)
    (hupload : (R.Upload first.PublicIP data
      "/home/ubuntu/mattermost-load-test-ng/config/config.json" false
      (R.NewClient first.PublicIP s).2).1.2 = none) :
    ((initLoadtest X R t initData s).ops.filter Op.isCommand =
      if initData = true ∧ t.config.TerraformDBSettings.ClusterIdentifier = "" then
        [Op.runCommand first.PublicIP (initCommand first.Tags.Name)]
      else []) ∧
    (¬ (initData = true ∧ t.config.TerraformDBSettings.ClusterIdentifier = "") →
      (initLoadtest X R t initData s).result = .ok ()) := by
  rw [initLoadtest_after_upload X R t initData s first rest cfg data hagents hclient hcfg
    hjson hupload]
  by_cases hseed : initData = true ∧ t.config.TerraformDBSettings.ClusterIdentifier = ""
  · simp [hseed, Op.isCommand]
  · simp [hseed, Op.isCommand]

/-- C6, on the test deployment (no database cluster identifier): with `initData` the
command runs once on the first agent, without it no command runs. -/
theorem initLoadtest_seed_gate_witness :
    ((initLoadtest demoExt (demoRemote "" "") demoTerraform true ()).ops.filter Op.isCommand =
      [Op.runCommand "203.0.113.1"
        "cd mattermost-load-test-ng && ./bin/ltagent init --user-prefix 'lt-agent-0'"]) ∧
    ((initLoadtest demoExt (demoRemote "" "") demoTerraform false ()).ops.filter Op.isCommand
      = []) ∧
    (initLoadtest demoExt (demoRemote "" "") demoTerraform false ()).result = .ok () :=
  ⟨(initLoadtest_seed_gate demoExt (demoRemote "" "") demoTerraform true () _ _ _
      "http://10.0.0.5" rfl rfl rfl rfl rfl).1.trans (by decide),
   (initLoadtest_seed_gate demoExt (demoRemote "" "") demoTerraform false () _ _ _
      "http://10.0.0.5" rfl rfl rfl rfl rfl).1.trans (by decide),
   (initLoadtest_seed_gate demoExt (demoRemote "" "") demoTerraform false () _ _ _
      "http://10.0.0.5" rfl rfl rfl rfl rfl).2 (by decide)⟩

/-! ### Which host an operation addresses -/

theorem targets_pure {σ α : Type} (ip : String) (a : α) : Targets ip (Act.pure a : Act σ α) := by
  intro s op hop
  simp [Act.pure] at hop

theorem targets_fail {σ α : Type} (ip : String) (f : Failure) :
    Targets ip (Act.fail f : Act σ α) := by
  intro s op hop
  simp [Act.fail] at hop

theorem targets_liftExcept {σ α : Type} (ip : String) (e : Except Failure α) :
    Targets ip (liftExcept e : Act σ α) := by
  cases e with
  | ok a => exact targets_pure ip a
  | error f => exact targets_fail ip f

theorem targets_bind {σ α β : Type} {ip : String} {m : Act σ α} {f : α → Act σ β}
    (hm : Targets ip m) (hf : ∀ a, Targets ip (f a)) : Targets ip (Act.bind m f) := by
  intro s op hop
  unfold Act.bind at hop
  have hms := hm s
  rcases hres : m s with ⟨res, ops, s1⟩
  rw [hres] at hop hms
  cases res with
  | error e => exact hms op hop
  | ok a =>
    simp only [List.mem_append] at hop
    rcases hop with h | h
    · exact hms op h
    · exact hf a s1 op h

theorem targets_NewClient {σ : Type} (R : Remote σ) (ip : String) :
    Targets ip (NewClient R ip) := by
  intro s op hop
  simp only [NewClient, List.mem_singleton] at hop
  rw [hop]; rfl

theorem targets_UploadFile {σ : Type} (R : Remote σ) (ip srcPath dstPath : String)
    (flag : Bool) : Targets ip (UploadFile R ip srcPath dstPath flag) := by
  intro s op hop
  simp only [UploadFile, List.mem_singleton] at hop
  rw [hop]; rfl

theorem targets_Upload {σ : Type} (R : Remote σ) (ip data dstPath : String) (flag : Bool) :
    Targets ip (Upload R ip data dstPath flag) := by
  intro s op hop
  simp only [Upload, List.mem_singleton] at hop
  rw [hop]; rfl

theorem targets_RunCommand {σ : Type} (R : Remote σ) (ip cmd : String) :
    Targets ip (RunCommand R ip cmd) := by
  intro s op hop
  simp only [RunCommand, List.mem_singleton] at hop
  rw [hop]; rfl

theorem targets_uploadBatch {σ ρ : Type} (X : Ext ρ) (R : Remote σ) (ip : String)
    (batch : List uploadInfo) : Targets ip (uploadBatch X R ip batch) := by
  induction batch with
  | nil => exact targets_pure ip ()
  | cons info rest ih =>
    unfold uploadBatch
    refine targets_bind (targets_Upload R ip _ _ _) ?_
    intro r
    cases h : r.2 with
    | none => exact ih
    | some err => exact targets_fail ip _

/-- Every operation of the bootstrap of one agent addresses that agent. -/
theorem targets_configureAgent {σ ρ : Type} (X : Ext ρ) (R : Remote σ) (t : Terraform)
    (uploadBinary : Bool) (packagePath : String) (commands : List String)
    (splitFiles : List (List String)) (i : Nat) (val : Instance) :
    Targets val.PublicIP
      (configureAgent X R t uploadBinary packagePath commands splitFiles i val) := by
  unfold configureAgent
  refine targets_bind (targets_NewClient R _) ?_
  intro e
  cases e with
  | some err => exact targets_fail _ _
  | none =>
  refine targets_bind ?_ ?_
  · cases uploadBinary with
    | false => exact targets_pure _ ()
    | true =>
      simp only [if_true]
      refine targets_bind (targets_UploadFile R _ _ _ _) ?_
      intro r
      cases h : r.2 with
      | none => exact targets_pure _ ()
      | some err => exact targets_fail _ _
  intro _
  refine targets_bind (targets_RunCommand R _ _) ?_
  intro r
  cases h : r.2 with
  | some err => exact targets_fail _ _
  | none =>
  cases hp : X.Parse X.apiServiceFile with
  | error err => exact targets_fail _ _
  | ok tpl =>
  refine targets_bind (targets_liftExcept _ _) ?_
  intro batch
  refine targets_bind (targets_liftExcept _ _) ?_
  intro batch2
  refine targets_bind ?_ ?_
  · intro s op hop
    have hb := targets_uploadBatch X R val.PublicIP batch2 s
    rcases hres : uploadBatch X R val.PublicIP batch2 s with ⟨res, ops, s1⟩
    rw [hres] at hb
    simp only [hres] at hop
    split at hop
    · next heq =>
      injection heq with _ h2 _
      subst h2
      exact hb op hop
    · exact hb op hop
  intro _
  refine targets_bind (targets_RunCommand R _ _) ?_
  intro r
  cases h : r.2 with
  | some err => exact targets_fail _ _
  | none =>
  refine targets_bind (targets_RunCommand R _ _) ?_
  intro r
  cases h : r.2 with
  | some err => exact targets_fail _ _
  | none => exact targets_pure _ ()

/-! ### The loop over the agents -/

/-- The loop issues operations on the agents it is given only. -/
theorem agentsLoop_hosts {σ ρ : Type} (X : Ext ρ) (R : Remote σ) (t : Terraform)
    (uploadBinary : Bool) (packagePath : String) (commands : List String)
    (splitFiles : List (List String)) (agents : List Instance) :
    ∀ (i : Nat) (s : σ),
      ∀ op ∈ (agentsLoop X R t uploadBinary packagePath commands splitFiles i agents s).ops,
        op.host ∈ agents.map (fun a => a.PublicIP) := by
  induction agents with
  | nil =>
    intro i s op hop
    simp [agentsLoop, Act.pure] at hop
  | cons val rest ih =>
    intro i s op hop
    have hval := targets_configureAgent X R t uploadBinary packagePath commands splitFiles i
      val s
    simp only [agentsLoop, Act.bind] at hop
    rcases hres : configureAgent X R t uploadBinary packagePath commands splitFiles i val s
      with ⟨res, ops, s1⟩
    rw [hres] at hop hval
    cases res with
    | error e =>
      simp only [List.map_cons, List.mem_cons]
      exact Or.inl (hval op hop)
    | ok a =>
      simp only [List.mem_append] at hop
      simp only [List.map_cons, List.mem_cons]
      rcases hop with h | h
      · exact Or.inl (hval op h)
      · exact Or.inr (ih (i + 1) s1 op h)

/-- When the agents `pre` are configured and the next agent `k` fails, the loop stops
there: it returns the failure of `k`, and its operations are those made on `pre` followed
by those made on `k`, whatever agents come after. -/
theorem agentsLoop_stops {σ ρ : Type} (X : Ext ρ) (R : Remote σ) (t : Terraform)
    (uploadBinary : Bool) (packagePath : String) (commands : List String)
    (splitFiles : List (List String)) (k : Instance) (post : List Instance) (f : Failure)
    (pre : List Instance) :
    ∀ (i : Nat) (s : σ),
      (agentsLoop X R t uploadBinary packagePath commands splitFiles i pre s).result = .ok () →
      (configureAgent X R t uploadBinary packagePath commands splitFiles (i + pre.length) k
        (agentsLoop X R t uploadBinary packagePath commands splitFiles i pre s).state).result
          = .error f →
      (agentsLoop X R t uploadBinary packagePath commands splitFiles i (pre ++ k :: post)
          s).result = .error f ∧
      (agentsLoop X R t uploadBinary packagePath commands splitFiles i (pre ++ k :: post)
          s).ops =
        (agentsLoop X R t uploadBinary packagePath commands splitFiles i pre s).ops ++
        (configureAgent X R t uploadBinary packagePath commands splitFiles (i + pre.length) k
          (agentsLoop X R t uploadBinary packagePath commands splitFiles i pre s).state).ops := by
  induction pre with
  | nil =>
    intro i s _ hk
    simp only [agentsLoop, Act.pure, List.length_nil, Nat.add_zero, List.nil_append,
      Act.bind] at hk ⊢
    rcases hres : configureAgent X R t uploadBinary packagePath commands splitFiles i k s
      with ⟨res, ops, s1⟩
    rw [hres] at hk
    simp only at hk
    subst hk
    simp
  | cons val rest ih =>
    intro i s hpre hk
    simp only [agentsLoop, Act.bind, List.cons_append, List.length_cons] at hpre hk ⊢
    rcases hres : configureAgent X R t uploadBinary packagePath commands splitFiles i val s
      with ⟨res, ops, s1⟩
    rw [hres] at hpre hk
    cases res with
    | error e => simp at hpre
    | ok a =>
      simp only at hpre hk ⊢
      have hidx : i + (rest.length + 1) = i + 1 + rest.length := by omega
      rw [hidx] at hk ⊢
      obtain ⟨h1, h2⟩ := ih (i + 1) s1 hpre hk
      exact ⟨h1, by rw [List.append_assoc]; exact congrArg (fun l => ops ++ l) h2⟩

/-- C7, as the code has it: a failure while bootstrapping agent `k` ends the whole pass.
When the agents before `k` have been configured and a step of `k` fails,
`configureAndRunAgents` returns that failure as it is, its operations are those of the
agents before `k` followed by those of `k` up to the failing step, and no operation
addresses an agent that comes after `k`. -/
theorem configureAndRunAgents_stops {σ ρ : Type} (X : Ext ρ) (R : Remote σ) (t : Terraform)
    (s : σ) (pkg : Bool × String) (sf : List (List String)) (pre post : List Instance)
    (k : Instance) (f : Failure)
    (hpkg : packageSource X t = .ok pkg)
    (hsplit : splitUsersFile X t = .ok sf)
    (hagents : t.output.Agents = pre ++ k :: post)
    (hpre : (agentsLoop X R t pkg.1 pkg.2 (installCommands t pkg.1) sf 0 pre s).result
      = .ok ())
    (hk : (configureAgent X R t pkg.1 pkg.2 (installCommands t pkg.1) sf pre.length k
      (agentsLoop X R t pkg.1 pkg.2 (installCommands t pkg.1) sf 0 pre s).state).result
        = .error f) :
    (configureAndRunAgents X R t s).result = .error f ∧
    (configureAndRunAgents X R t s).ops =
      (agentsLoop X R t pkg.1 pkg.2 (installCommands t pkg.1) sf 0 pre s).ops ++
      (configureAgent X R t pkg.1 pkg.2 (installCommands t pkg.1) sf pre.length k
        (agentsLoop X R t pkg.1 pkg.2 (installCommands t pkg.1) sf 0 pre s).state).ops ∧
    (∀ op ∈ (configureAndRunAgents X R t s).ops,
      op.host ∈ (pre ++ [k]).map (fun a => a.PublicIP)) := by
  have hrun : configureAndRunAgents X R t s =
      agentsLoop X R t pkg.1 pkg.2 (installCommands t pkg.1) sf 0 (pre ++ k :: post) s := by
    simp [configureAndRunAgents, hpkg, hsplit, hagents, liftExcept, Act.bind, Act.pure]
  have hk0 : (configureAgent X R t pkg.1 pkg.2 (installCommands t pkg.1) sf (0 + pre.length) k
      (agentsLoop X R t pkg.1 pkg.2 (installCommands t pkg.1) sf 0 pre s).state).result
        = .error f := by
    rw [Nat.zero_add]; exact hk
  obtain ⟨h1, h2⟩ := agentsLoop_stops X R t pkg.1 pkg.2 (installCommands t pkg.1) sf k post f
    pre 0 s hpre hk0
  rw [Nat.zero_add] at h2
  rw [hrun]
  refine ⟨h1, h2, ?_⟩
  intro op hop
  rw [h2] at hop
  simp only [List.map_append, List.mem_append, List.map_cons, List.map_nil,
    List.mem_singleton] at hop ⊢
  rcases hop with h | h
  · exact Or.inl (by
      simpa using agentsLoop_hosts X R t pkg.1 pkg.2 (installCommands t pkg.1) sf pre 0 s op h)
  · exact Or.inr (targets_configureAgent X R t pkg.1 pkg.2 (installCommands t pkg.1) sf
      pre.length k _ op h)

/-- C7, on the test deployment with the first of two agents unreachable: the pass ends at
the first agent. -/
theorem configureAndRunAgents_stops_witness :
    (configureAndRunAgents demoExt (demoRemote "203.0.113.1" "") demoTerraform ()).result
      = .error (.err "ssh: handshake failed") ∧
    (∀ op ∈ (configureAndRunAgents demoExt (demoRemote "203.0.113.1" "") demoTerraform ()).ops,
      op.host ∈ ["203.0.113.1"]) :=
  ⟨(configureAndRunAgents_stops demoExt (demoRemote "203.0.113.1" "") demoTerraform ()
      (false, "") [["a", "c", "e"], ["b", "d"]] []
      [{ PublicIP := "203.0.113.2", PrivateIP := "10.0.1.2", Tags := { Name := "lt-agent-1" } }]
      { PublicIP := "203.0.113.1", PrivateIP := "10.0.1.1", Tags := { Name := "lt-agent-0" } }
      (.err "ssh: handshake failed") rfl rfl rfl rfl rfl).1,
   (configureAndRunAgents_stops demoExt (demoRemote "203.0.113.1" "") demoTerraform ()
      (false, "") [["a", "c", "e"], ["b", "d"]] []
      [{ PublicIP := "203.0.113.2", PrivateIP := "10.0.1.2", Tags := { Name := "lt-agent-1" } }]
      { PublicIP := "203.0.113.1", PrivateIP := "10.0.1.1", Tags := { Name := "lt-agent-0" } }
      (.err "ssh: handshake failed") rfl rfl rfl rfl rfl).2.2⟩

/-- C7 fails as stated: on the test deployment the complete bootstrap of the second agent
is ten operations; when no client can be created for the first agent the function returns
that error, which does not name the agent, after the single attempt on the first agent, and
the second agent receives no operation at all. -/
theorem configureAndRunAgents_failure_not_isolated :
    ((configureAndRunAgents demoExt (demoRemote "" "") demoTerraform ()).ops.filter
      (fun op => op.host == "203.0.113.2")).length = 10 ∧
    (configureAndRunAgents demoExt (demoRemote "203.0.113.1" "") demoTerraform ()).result
      = .error (.err "ssh: handshake failed") ∧
    (configureAndRunAgents demoExt (demoRemote "203.0.113.1" "") demoTerraform ()).ops
      = [Op.newClient "203.0.113.1"] ∧
    ((configureAndRunAgents demoExt (demoRemote "203.0.113.1" "") demoTerraform ()).ops.filter
      (fun op => op.host == "203.0.113.2")) = [] :=
  ⟨by decide, rfl, by decide, by decide⟩

/-- C8, as the code has it: with `SiteURL` empty the batch is left as it is; with `SiteURL`
set and a fleet output that has at least one app instance, one upload to `/etc/hosts` is
appended, whose content is the hosts template filled with the line `<ip> <SiteURL>` and a
line end, `<ip>` being the private address of the proxy when the fleet has a proxy and of
the first instance when it has none. -/
theorem hostsBatch_entry {ρ : Type} (X : Ext ρ) (t : Terraform) (batch : List uploadInfo)
    (output : Output) (first : Instance) (others : List Instance) :
    (t.config.SiteURL = "" → hostsBatch X t batch = .ok batch) ∧
    (t.config.SiteURL ≠ "" → X.Output t = .ok output → output.Instances = first :: others →
      hostsBatch X t batch = .ok (batch ++ [
        { srcData := X.appHosts
            ((if X.HasProxy output then output.Proxy.PrivateIP else first.PrivateIP)
              ++ " " ++ t.config.SiteURL ++ "\n")
          dstPath := "/etc/hosts"
          msg := "Updating /etc/hosts to point to the correct IP" }])) := by
  constructor
  · intro h
    simp [hostsBatch, h]
  · intro h hout hinst
    simp [hostsBatch, h, hout, hinst]

/-- C8, on the example of the spec: a proxy at `10.0.0.5` and the site URL
`test.example.com` give the line `10.0.0.5 test.example.com`. -/
theorem hostsBatch_entry_witness :
    hostsBatch demoExt demoTerraform [] = .ok [
      { srcData := "127.0.0.1 localhost\n" ++ ("10.0.0.5 test.example.com" ++ "\n")
        dstPath := "/etc/hosts"
        msg := "Updating /etc/hosts to point to the correct IP" }] ∧
    hostsBatch demoExt { demoTerraform with config := baseConfig } [] = .ok [] :=
  ⟨((hostsBatch_entry demoExt demoTerraform [] demoTerraform.output
      { PublicIP := "203.0.113.9", PrivateIP := "10.0.0.9", Tags := { Name := "lt-app-0" } }
      []).2 (by decide) rfl rfl).trans rfl,
   (hostsBatch_entry demoExt { demoTerraform with config := baseConfig } [] demoTerraform.output
      noInstance []).1 rfl⟩

/-- C8 fails as stated: with a proxy at `10.0.0.5` and no app instance the entry is not
built; `output.Instances[0]` is read first and the function panics. -/
theorem hostsBatch_proxy_without_instances :
    demoExt.HasProxy proxyOnlyTerraform.output = true ∧
    proxyOnlyTerraform.output.Instances = [] ∧
    proxyOnlyTerraform.config.SiteURL = "test.example.com" ∧
    hostsBatch demoExt proxyOnlyTerraform [] = .error (.panic "index out of range") ∧
    (configureAndRunAgents demoExt (demoRemote "" "") proxyOnlyTerraform ()).result
      = .error (.panic "index out of range") :=
  ⟨by decide, rfl, rfl, rfl, rfl⟩

/-- C9: for a configuration whose download URLs pass the scheme check and whose search
settings pass their check, `IsValid` fails if and only if the cluster identifier is set and
the database name is empty; the failure is then `IncompleteDBSettings`, and the three other
combinations are accepted. -/
theorem IsValid_db_pairing (maxLen : Nat) (c : Config)
    (hserver : validDownloadSource c.MattermostDownloadURL = true)
    (hagent : validDownloadSource c.LoadTestDownloadURL = true)
    (hsearch : validateElasticSearchConfig maxLen c = .ok ()) :
    ((∃ e, IsValid maxLen c = .error e) ↔
      (c.TerraformDBSettings.ClusterIdentifier ≠ "" ∧ c.TerraformDBSettings.DBName = "")) ∧
    ((c.TerraformDBSettings.ClusterIdentifier ≠ "" ∧ c.TerraformDBSettings.DBName = "") →
      IsValid maxLen c = .error .IncompleteDBSettings) ∧
    (¬ (c.TerraformDBSettings.ClusterIdentifier ≠ "" ∧ c.TerraformDBSettings.DBName = "") →
      IsValid maxLen c = .ok ()) := by
  by_cases h : c.TerraformDBSettings.ClusterIdentifier ≠ "" ∧ c.TerraformDBSettings.DBName = ""
  · have hv : IsValid maxLen c = .error .IncompleteDBSettings := by
      unfold IsValid
      simp only [hserver, hagent, Bool.not_true, Bool.false_eq_true, if_false]
      rw [if_pos h]
    exact ⟨⟨fun _ => h, fun _ => ⟨_, hv⟩⟩, fun _ => hv, fun hn => absurd h hn⟩
  · have hv : IsValid maxLen c = .ok () := by
      unfold IsValid
      simp only [hserver, hagent, Bool.not_true, Bool.false_eq_true, if_false]
      rw [if_neg h, hsearch]
    refine ⟨⟨?_, fun hp => absurd hp h⟩, fun hp => absurd hp h, fun _ => hv⟩
    rintro ⟨e, he⟩
    rw [hv] at he
    exact Except.noConfusion he

/-- C9, on the four database cases of `TestConfigIsValid`. -/
theorem IsValid_db_pairing_witness :
    IsValid 28 (withDB baseConfig "" "") = .ok () ∧
    IsValid 28 (withDB baseConfig "" "db") = .ok () ∧
    IsValid 28 (withDB baseConfig "cluster" "") = .error .IncompleteDBSettings ∧
    IsValid 28 (withDB baseConfig "cluster" "db") = .ok () :=
  ⟨(IsValid_db_pairing 28 (withDB baseConfig "" "") (by decide) (by decide) rfl).2.2
      (by decide),
   (IsValid_db_pairing 28 (withDB baseConfig "" "db") (by decide) (by decide) rfl).2.2
      (by decide),
   (IsValid_db_pairing 28 (withDB baseConfig "cluster" "") (by decide) (by decide) rfl).2.1
      (by decide),
   (IsValid_db_pairing 28 (withDB baseConfig "cluster" "db") (by decide) (by decide) rfl).2.2
      (by decide)⟩

/-- C10: with `InstanceCount` zero the search check succeeds whatever the cluster name and
the VPC identifier are; with a positive `InstanceCount` it fails if and only if the VPC
identifier is empty or the cluster name is not a valid domain label. -/
theorem validateElasticSearchConfig_gate (maxLen : Nat) (c : Config) :
    (c.ElasticSearchSettings.InstanceCount = 0 →
      validateElasticSearchConfig maxLen c = .ok ()) ∧
    (c.ElasticSearchSettings.InstanceCount > 0 →
      ((∃ e, validateElasticSearchConfig maxLen c = .error e) ↔
        (c.ElasticSearchSettings.VpcID = "" ∨ validDomainLabel maxLen c.ClusterName = false))) := by
  constructor
  · intro h
    simp [validateElasticSearchConfig, h]
  · intro h
    unfold validateElasticSearchConfig
    rw [if_pos h]
    by_cases hv : c.ElasticSearchSettings.VpcID = ""
    · simp [hv]
    · by_cases hl : validDomainLabel maxLen c.ClusterName = true
      · simp [hv, hl]
      · simp [hv, hl]

/-- C10, on the cases of `TestValidateElasticSearchConfig`: the name
`InvalidClusterNameForES!@#$` fails with one instance and passes with none. -/
theorem validateElasticSearchConfig_gate_witness :
    validateElasticSearchConfig 28
      { baseValidConfig with
        ClusterName := "InvalidClusterNameForES!@#$"
        ElasticSearchSettings := { baseValidConfig.ElasticSearchSettings with
          InstanceCount := 0 } } = .ok () ∧
    (∃ e, validateElasticSearchConfig 28
      { baseValidConfig with ClusterName := "InvalidClusterNameForES!@#$" } = .error e) :=
  ⟨(validateElasticSearchConfig_gate 28
      { baseValidConfig with
        ClusterName := "InvalidClusterNameForES!@#$"
        ElasticSearchSettings := { baseValidConfig.ElasticSearchSettings with
          InstanceCount := 0 } }).1 rfl,
   ((validateElasticSearchConfig_gate 28
      { baseValidConfig with ClusterName := "InvalidClusterNameForES!@#$" }).2
        (by decide)).2 (Or.inr (by decide))⟩

end LoadTest
